import Mathlib

/-!
# Verification of the open62541 client connect/disconnect core

Shallow embedding of `src/client/ua_client_connect.c` (open62541 client
connection establishment and teardown).  Pure data is translated directly;
the external collaborators (transport driver, security policy plugins,
codec, asynchronous service dispatcher, monotonic clock) are modelled as an
oracle record `Env` whose fields decide the outcome of each external call,
so all theorems are quantified over every possible behaviour of the
environment.  Observable side effects (messages sent on the wire, the state
observer callback, log lines) are recorded in an event trace.

Machine integers: status codes and enumeration values are `Nat`;
`UA_DateTime` (64-bit signed, 100ns ticks) is `Int`.  None of the modelled
arithmetic can overflow 64 bits (timeout is a 32-bit value multiplied by
10000 and doubled), except the deliberate truncating cast to `UA_UInt16` in
`UA_Client_connectSession`, which is modelled explicitly as `% 65536`.
-/

/-! ## Status codes and enumerations -/

abbrev UA_StatusCode := Nat

def UA_STATUSCODE_GOOD : UA_StatusCode := 0
def UA_STATUSCODE_BADINTERNALERROR : UA_StatusCode := 0x80020000
def UA_STATUSCODE_BADOUTOFMEMORY : UA_StatusCode := 0x80030000
def UA_STATUSCODE_BADTIMEOUT : UA_StatusCode := 0x800A0000
def UA_STATUSCODE_BADSERVERNOTCONNECTED : UA_StatusCode := 0x80AB0000
def UA_STATUSCODE_BADSHUTDOWN : UA_StatusCode := 0x80AD0000
def UA_STATUSCODE_BADCONNECTIONCLOSED : UA_StatusCode := 0x80AE0000

/-- Modelled from the spec: the `UA_ClientState` enumeration lives in a header
that is not part of the excerpt; §3 of the spec fixes the total order
`Disconnected < WaitingForAck < Connected < SecureChannel < SessionRenewed
< Session`, which we realize as the values 0..5. -/
def UA_CLIENTSTATE_DISCONNECTED : Nat := 0

def UA_CLIENTSTATE_WAITING_FOR_ACK : Nat := 1

def UA_CLIENTSTATE_CONNECTED : Nat := 2

def UA_CLIENTSTATE_SECURECHANNEL : Nat := 3

def UA_CLIENTSTATE_SESSION_RENEWED : Nat := 4

def UA_CLIENTSTATE_SESSION : Nat := 5

/-- Transport connection state (spec §2: {opening, established, closed}). -/
inductive UA_ConnectionState where
  | closed
  | opening
  | established
  deriving Repr, DecidableEq

def UA_CONNECTION_CLOSED : UA_ConnectionState := .closed
def UA_CONNECTION_OPENING : UA_ConnectionState := .opening
def UA_CONNECTION_ESTABLISHED : UA_ConnectionState := .established

/-- SecureChannel state; only `FRESH` (set on connect) and `CLOSED` (set by
`UA_SecureChannel_close`) are written by the modelled code. -/
def UA_SECURECHANNELSTATE_FRESH : Nat := 0

def UA_SECURECHANNELSTATE_CLOSED : Nat := 5

/-- `UA_MessageSecurityMode`: INVALID = 0, NONE = 1, SIGN = 2,
SIGNANDENCRYPT = 3. -/
def UA_MESSAGESECURITYMODE_INVALID : Nat := 0

def UA_MESSAGESECURITYMODE_NONE : Nat := 1

/-- `UA_DateTime` is in 100 nanosecond ticks; one millisecond. -/
def UA_DATETIME_MSEC : Int := 10000

/-- The tag of `config.userIdentityToken.content.decoded.type`: the C code
compares the type pointer against `NULL` and the four identity-token type
descriptors. -/
inductive UserIdentityType where
  | nullType
  | anonymous
  | userName
  | x509
  | issuedToken
  deriving Repr, DecidableEq

/-! ## Data model -/

structure UA_UserTokenPolicy where
  policyId : String
  tokenType : Nat
  securityPolicyUri : String
  deriving Repr, DecidableEq

structure UA_EndpointDescription where
  endpointUrl : String
  transportProfileUri : String
  securityMode : Nat
  securityPolicyUri : String
  serverCertificate : String
  userIdentityTokens : List UA_UserTokenPolicy
  deriving Repr, DecidableEq

/-- An all-zero `UA_UserTokenPolicy` (result of `memset` 0 /
`_deleteMembers`). -/
def zeroUserTokenPolicy : UA_UserTokenPolicy :=
  { policyId := "", tokenType := 0, securityPolicyUri := "" }

/-- An all-zero `UA_EndpointDescription`. -/
def zeroEndpointDescription : UA_EndpointDescription :=
  { endpointUrl := "", transportProfileUri := "", securityMode := 0,
    securityPolicyUri := "", serverCertificate := "", userIdentityTokens := [] }

/-- Client configuration, read-only during connect except for the selected
endpoint and user token policy (written by `selectEndpoint`).  The security
policy table is modelled by the list of implemented policy URIs. -/
structure UA_ClientConfig where
  timeout : Nat
  secureChannelLifeTime : Nat
  securityMode : Nat
  securityPolicyUri : String
  securityPolicies : List String
  userIdentityTokenType : UserIdentityType
  endpoint : UA_EndpointDescription
  userTokenPolicy : UA_UserTokenPolicy
  stateCallbackSet : Bool
  deriving Repr, DecidableEq

/-- The mutable client aggregate (`UA_Client` fields touched by
`ua_client_connect.c`).  The channel's bound security policy is the policy
URI, `none` modelling the `NULL` pointer; the authentication token is
modelled by its null-ness, which is all the connect code inspects. -/
structure UA_Client where
  state : Nat
  connectionState : UA_ConnectionState
  connectionCloseSet : Bool
  channelState : Nat
  channelSecurityPolicyUri : Option String
  channelSecurityMode : Nat
  channelLocalNonce : Nat
  channelSendSequenceNumber : Nat
  channelSecurityTokenId : Nat
  nextChannelRenewal : Int
  requestId : Nat
  requestHandle : Nat
  authenticationTokenIsNull : Bool
  connectStatus : UA_StatusCode
  config : UA_ClientConfig
  deriving Repr, DecidableEq

/-! ## Observable events

Messages put on the wire, the state-observer callback, the two error log
lines of `selectEndpoint`, and the cancellation of pending asynchronous
services are the externally observable effects of the connect core.  They
are recorded in order in a trace. -/

inductive UA_Event where
  | stateChange (newState : Nat)
  | sentHEL
  | sentOPN (renew : Bool)
  | sentCloseSession
  | sentCloseSecureChannel
  | closedTCP
  | ranIterate (timeoutMs : Nat)
  | removedAsyncServices (code : UA_StatusCode)
  | logNoSuitableEndpoint
  | logNoSuitableUserTokenPolicy
  deriving Repr, DecidableEq

def isStateChangeEvent : UA_Event → Bool
  | .stateChange _ => true
  | _ => false

/-- The client together with its observable trace and the call counters of
the two stateful oracles (monotonic clock reads and dispatcher pumps). -/
structure Sys where
  client : UA_Client
  trace : List UA_Event
  clockCalls : Nat
  pumpCalls : Nat
  deriving Repr, DecidableEq

def Sys.pushEvent (sys : Sys) (e : UA_Event) : Sys :=
  { sys with trace := sys.trace ++ [e] }

/-- A raw write of `client->state` (the direct assignments at
`ua_client_connect.c:126`, `:701` and `:709`, which bypass
`setClientState`). -/
def Sys.setStateRaw (sys : Sys) (s : Nat) : Sys :=
  { sys with client := { sys.client with state := s } }

def Sys.tickClock (sys : Sys) : Sys :=
  { sys with clockCalls := sys.clockCalls + 1 }

def Sys.tickPump (sys : Sys) : Sys :=
  { sys with pumpCalls := sys.pumpCalls + 1 }

/-- Modelled from the spec: the visible effect of one dispatcher pump
(`receiveServiceResponse` / `UA_Client_run_iterate`, outside the excerpt).
Per spec §4.3 and §4.6 the dispatcher may lift or reset the client state,
update `connectStatus`, and — on decoding the OpenSecureChannelResponse —
re-derive `nextChannelRenewal` from the server-revised lifetime
(`created + 0.75·revisedLifetime`).  Each effect is dictated by the
environment; `none` means the field is untouched by this pump. -/
structure PumpEffect where
  status : UA_StatusCode
  newState : Option Nat
  newConnectStatus : Option UA_StatusCode
  newNextChannelRenewal : Option Int
  deriving Repr, DecidableEq

def Sys.applyPump (sys : Sys) (p : PumpEffect) : Sys :=
  { sys with client := { sys.client with
      state := p.newState.getD sys.client.state,
      connectStatus := p.newConnectStatus.getD sys.client.connectStatus,
      nextChannelRenewal :=
        p.newNextChannelRenewal.getD sys.client.nextChannelRenewal } }

/-! ## Environment (oracle for the external collaborators) -/

/-- One oracle per external call made by `ua_client_connect.c`.  Statuses
model the return values of the transport driver, codec and crypto plugins;
`clock` is the monotonic clock indexed by call count; `opnPump` and
`runIterate` are the dispatcher pumps indexed by pump count, each returning
a status and the dispatcher's optional updates of the client state,
`connectStatus` and `nextChannelRenewal` (see `PumpEffect`).  The two
receive loops are given fuel: exhausted fuel models the deadline passing
(the loops' only exit that does not come from the oracles). -/
structure Env where
  clock : Nat → Int
  getSendBufferStatus : UA_StatusCode
  encodeHelloStatus : UA_StatusCode
  encodeHeaderStatus : UA_StatusCode
  sendHelStatus : UA_StatusCode
  ackChunk : Option (UA_StatusCode × UA_StatusCode)
  receiveChunksStatus : UA_StatusCode
  setSecurityPolicyStatus : UA_StatusCode
  connectionFuncState : UA_ConnectionState
  connectionFuncCloseSet : Bool
  generateNonceStatus : UA_StatusCode
  nonceValue : Nat
  sendOPNStatus : UA_StatusCode
  opnPump : Nat → PumpEffect
  opnFuel : Nat
  getEndpointsStatus : UA_StatusCode
  endpoints : List UA_EndpointDescription
  copyEndpointStatus : UA_StatusCode
  copyTokenStatus : UA_StatusCode
  createSessionStatus : UA_StatusCode
  activateSessionStatus : UA_StatusCode
  runIterate : Nat → PumpEffect
  sessionFuel : Nat

/-! ## Set client state (ua_client_connect.c:27-34) -/

/-- `setClientState`: compare, write, fire the observer callback with the
new value; a no-op write does not fire. -/
def setClientState (sys : Sys) (state : Nat) : Sys :=
  if sys.client.state ≠ state then
    let sys := sys.setStateRaw state
    if sys.client.config.stateCallbackSet then
      sys.pushEvent (UA_Event.stateChange state)
    else sys
  else sys

/-! ## Close the connection (ua_client_connect.c:665-733) -/

/-- `sendCloseSession` (ua_client_connect.c:665-678): best-effort
synchronous CloseSession; the response and its status are discarded. -/
def sendCloseSession (sys : Sys) : Sys :=
  sys.pushEvent UA_Event.sentCloseSession

/-- Modelled from the spec: `UA_SecureChannel_close` and
`UA_SecureChannel_deleteMembers` live in the SecureChannel module outside
the excerpt; per spec §3 and §5 destroying the channel closes it, zeroes
the key material and nonces, and unbinds the security policy. -/
def UA_SecureChannel_deleteMembers (c : UA_Client) : UA_Client :=
  { c with channelSecurityPolicyUri := none, channelLocalNonce := 0,
           channelSecurityTokenId := 0 }

/-- `sendCloseSecureChannel` (ua_client_connect.c:680-695): final symmetric
CLO message, then close and destroy the channel. -/
def sendCloseSecureChannel (sys : Sys) : Sys :=
  let sys := { sys with client := { sys.client with
      requestHandle := sys.client.requestHandle + 1,
      requestId := sys.client.requestId + 1 } }
  let sys := sys.pushEvent UA_Event.sentCloseSecureChannel
  let closedClient := { sys.client with channelState := UA_SECURECHANNELSTATE_CLOSED }
  { sys with client := UA_SecureChannel_deleteMembers closedClient }

/-- Modelled from the spec: the transport driver's `close` (spec §6) closes
the socket; the connection state becomes `closed`. -/
def closeConnection (sys : Sys) : Sys :=
  ({ sys with client := { sys.client with
      connectionState := UA_CONNECTION_CLOSED } }).pushEvent UA_Event.closedTCP

/-- `UA_Client_disconnect` (ua_client_connect.c:697-733).  Note that the
demotions at lines 701 and 709 are direct writes that bypass
`setClientState`; only the final transition to `DISCONNECTED` goes through
the mutator. -/
def UA_Client_disconnect (sys : Sys) : UA_StatusCode × Sys :=
  let sys :=
    if UA_CLIENTSTATE_SESSION ≤ sys.client.state then
      sendCloseSession (sys.setStateRaw UA_CLIENTSTATE_SECURECHANNEL)
    else sys
  let sys := { sys with client := { sys.client with
      authenticationTokenIsNull := true, requestHandle := 0 } }
  let sys :=
    if UA_CLIENTSTATE_SECURECHANNEL ≤ sys.client.state then
      sendCloseSecureChannel (sys.setStateRaw UA_CLIENTSTATE_CONNECTED)
    else sys
  let sys :=
    if sys.client.connectionState ≠ UA_CONNECTION_CLOSED ∧
       sys.client.connectionState ≠ UA_CONNECTION_OPENING then
      if sys.client.connectionCloseSet then closeConnection sys else sys
    else sys
  let sys := sys.pushEvent (UA_Event.removedAsyncServices UA_STATUSCODE_BADSHUTDOWN)
  let sys := { sys with client := UA_SecureChannel_deleteMembers sys.client }
  let sys := setClientState sys UA_CLIENTSTATE_DISCONNECTED
  (UA_STATUSCODE_GOOD, sys)

/-! ## HEL/ACK handshake (ua_client_connect.c:43-130) -/

/-- `processACKResponse` (ua_client_connect.c:43-69): the chunk callback;
a decode or `UA_SecureChannel_processHELACK` failure triggers
`UA_Client_disconnect`.  Modelled from the spec for the success case:
`UA_SecureChannel_processHELACK` lives outside the excerpt; per spec §4.2
it applies the negotiated limits (not modelled, no claim depends on them)
and completes the transport handshake, after which the transport is in
state `established` (spec §2 and §8: after a successful connect the
transport is established, and `openSecureChannel` at line 148 requires
exactly that). -/
def processACKResponse (decodeStatus processStatus : UA_StatusCode) (sys : Sys) : Sys :=
  if decodeStatus ≠ UA_STATUSCODE_GOOD then (UA_Client_disconnect sys).2
  else if processStatus ≠ UA_STATUSCODE_GOOD then (UA_Client_disconnect sys).2
  else { sys with client := { sys.client with
      connectionState := UA_CONNECTION_ESTABLISHED } }

/-- `HelAckHandshake` (ua_client_connect.c:71-130).  Buffer, encode and send
outcomes come from the environment; `env.ackChunk` is the complete chunk
delivered (if any) by `UA_SecureChannel_receiveChunksBlocking`, which runs
the callback; `env.receiveChunksStatus` is that call's return value.  On a
non-good receive status, `BADCONNECTIONCLOSED` first forces the state to
`DISCONNECTED` by a raw write (line 126), then the client disconnects. -/
def HelAckHandshake (env : Env) (sys : Sys) : UA_StatusCode × Sys :=
  if env.getSendBufferStatus ≠ UA_STATUSCODE_GOOD then (env.getSendBufferStatus, sys)
  else if env.encodeHelloStatus ≠ UA_STATUSCODE_GOOD then (env.encodeHelloStatus, sys)
  else if env.encodeHeaderStatus ≠ UA_STATUSCODE_GOOD then (env.encodeHeaderStatus, sys)
  else if env.sendHelStatus ≠ UA_STATUSCODE_GOOD then (env.sendHelStatus, sys)
  else
    let sys := sys.pushEvent UA_Event.sentHEL
    let sys :=
      match env.ackChunk with
      | none => sys
      | some chunk => processACKResponse chunk.1 chunk.2 sys
    if env.receiveChunksStatus ≠ UA_STATUSCODE_GOOD then
      let sys :=
        if env.receiveChunksStatus = UA_STATUSCODE_BADCONNECTIONCLOSED then
          sys.setStateRaw UA_CLIENTSTATE_DISCONNECTED
        else sys
      (env.receiveChunksStatus, (UA_Client_disconnect sys).2)
    else (UA_STATUSCODE_GOOD, sys)

/-! ## Security policy lookup and OpenSecureChannel
(ua_client_connect.c:132-209) -/

/-- `getSecurityPolicy` (ua_client_connect.c:132-139): first implemented
security policy whose URI equals the requested one, else `NULL`. -/
def getSecurityPolicy (cfg : UA_ClientConfig) (policyUri : String) : Option String :=
  cfg.securityPolicies.find? (fun p => p == policyUri)

/-- The OPN response receive loop (ua_client_connect.c:202-206): a do-while
that first checks the deadline against the monotonic clock, then pumps
`receiveServiceResponse`, until the state reaches `SECURECHANNEL` or the
pump fails.  Fuel exhaustion models the deadline passing (the clock oracle
eventually exceeding `maxDate`), hence returns `BADCONNECTIONCLOSED`. -/
def opnReceiveLoop (env : Env) (maxDate : Int) : Nat → Sys → UA_StatusCode × Sys
  | 0, sys => (UA_STATUSCODE_BADCONNECTIONCLOSED, sys)
  | fuel+1, sys =>
    if maxDate < env.clock sys.clockCalls then
      (UA_STATUSCODE_BADCONNECTIONCLOSED, sys.tickClock)
    else
      let sys := sys.tickClock
      let p := env.opnPump sys.pumpCalls
      let sys := (sys.tickPump).applyPump p
      if sys.client.state < UA_CLIENTSTATE_SECURECHANNEL ∧ p.status = UA_STATUSCODE_GOOD then
        opnReceiveLoop env maxDate fuel sys
      else (p.status, sys)

/-- The send half of `openSecureChannel` (ua_client_connect.c:147-196):
transport precondition, local nonce generation, OpenSecureChannelRequest
build, fresh request id, asymmetric OPN send (`UA_Client_disconnect` on a
send failure), and — on success — the push of `nextChannelRenewal` to
now + 2·timeout (lines 193-196). -/
def openSecureChannelSend (env : Env) (renew : Bool) (sys : Sys) : UA_StatusCode × Sys :=
  if sys.client.connectionState ≠ UA_CONNECTION_ESTABLISHED then
    (UA_STATUSCODE_BADSERVERNOTCONNECTED, sys)
  else if env.generateNonceStatus ≠ UA_STATUSCODE_GOOD then
    (env.generateNonceStatus, sys)
  else
    let sys := { sys with client := { sys.client with
        channelLocalNonce := env.nonceValue } }
    let sys := { sys with client := { sys.client with
        requestId := sys.client.requestId + 1 } }
    if env.sendOPNStatus ≠ UA_STATUSCODE_GOOD then
      (env.sendOPNStatus, (UA_Client_disconnect sys).2)
    else
      let sys := sys.pushEvent (UA_Event.sentOPN renew)
      let sys := { sys with client := { sys.client with
          nextChannelRenewal := env.clock sys.clockCalls +
            2 * ((sys.client.config.timeout : Int) * UA_DATETIME_MSEC) } }
      (UA_STATUSCODE_GOOD, sys.tickClock)

/-- Body of `openSecureChannel` after the renew short-circuit
(ua_client_connect.c:147-209): the send half, then the bounded OPN
response receive loop (lines 198-206). -/
def openSecureChannelBody (env : Env) (renew : Bool) (sys : Sys) : UA_StatusCode × Sys :=
  let s := openSecureChannelSend env renew sys
  if s.1 ≠ UA_STATUSCODE_GOOD then s
  else
    let sys := s.2
    let now := env.clock sys.clockCalls
    let sys := sys.tickClock
    let maxDate := now + (sys.client.config.timeout : Int) * UA_DATETIME_MSEC
    opnReceiveLoop env maxDate env.opnFuel sys

/-- `openSecureChannel` (ua_client_connect.c:141-209).  The renew
short-circuit (line 144) is evaluated before the transport-state check;
the `&&` short-circuit means the clock is only read when `renew` is set. -/
def openSecureChannel (env : Env) (renew : Bool) (sys : Sys) : UA_StatusCode × Sys :=
  if renew then
    if env.clock sys.clockCalls < sys.client.nextChannelRenewal then
      (UA_STATUSCODE_GOOD, sys.tickClock)
    else openSecureChannelBody env renew sys.tickClock
  else openSecureChannelBody env renew sys

/-! ## Endpoint selection (ua_client_connect.c:211-408) -/

def binaryTransportProfileUri : String :=
  "http://opcfoundation.org/UA-Profile/Transport/uatcp-uasc-uabinary"

def securityPolicyNoneUri : String :=
  "http://opcfoundation.org/UA/SecurityPolicy#None"

/-- The endpoint filter of `selectEndpoint` (ua_client_connect.c:259-292):
the chain of `continue` conditions, in source order. -/
def endpointRejected (cfg : UA_ClientConfig) (ep : UA_EndpointDescription) : Bool :=
  if ep.transportProfileUri ≠ "" ∧ ep.transportProfileUri ≠ binaryTransportProfileUri then
    true
  else if ep.securityMode < 1 ∨ 3 < ep.securityMode then true
  else if 0 < cfg.securityMode ∧ cfg.securityMode ≠ ep.securityMode then true
  else if cfg.securityPolicyUri ≠ "" ∧ cfg.securityPolicyUri ≠ ep.securityPolicyUri then
    true
  else if (getSecurityPolicy cfg ep.securityPolicyUri).isNone then true
  else false

/-- The user-token-policy filter of `selectEndpoint`
(ua_client_connect.c:298-336): the chain of `continue` conditions of the
inner loop, in source order (token types: ANONYMOUS = 0, USERNAME = 1,
CERTIFICATE = 2, ISSUEDTOKEN = 3). -/
def userTokenRejected (cfg : UA_ClientConfig) (tok : UA_UserTokenPolicy) : Bool :=
  if tok.securityPolicyUri ≠ "" ∧ (getSecurityPolicy cfg tok.securityPolicyUri).isNone then
    true
  else if 3 < tok.tokenType then true
  else if tok.tokenType = 0 ∧ cfg.userIdentityTokenType ≠ UserIdentityType.anonymous ∧
          cfg.userIdentityTokenType ≠ UserIdentityType.nullType then true
  else if tok.tokenType = 1 ∧ cfg.userIdentityTokenType ≠ UserIdentityType.userName then
    true
  else if tok.tokenType = 2 ∧ cfg.userIdentityTokenType ≠ UserIdentityType.x509 then true
  else if tok.tokenType = 3 ∧ cfg.userIdentityTokenType ≠ UserIdentityType.issuedToken then
    true
  else false

/-- Result of the endpoint scan loop: the `endpointFound` / `tokenFound`
flags, the loop's `retval` and the mutated state. -/
structure SelectLoopResult where
  endpointFound : Bool
  tokenFound : Bool
  retval : UA_StatusCode
  sys : Sys
  deriving Repr, DecidableEq

/-- The endpoint scan loop of `selectEndpoint` (ua_client_connect.c:259-390).
An endpoint failing the filter is skipped.  For a passing endpoint the
inner loop (modelled by `find?`, which returns the first token policy not
rejected, exactly as the `continue` chain does) either finds no acceptable
token — the outer loop continues with `endpointFound = true` — or commits:
the stored endpoint and token policy are cleared (`_deleteMembers`) and the
copies (oracle statuses, out-of-memory can fail them) are made; `tokenFound
= true` makes the outer loop stop either way (`break` at line 389). -/
def selectEndpointLoop (env : Env) :
    List UA_EndpointDescription → Bool → Sys → SelectLoopResult
  | [], epFound, sys =>
    { endpointFound := epFound, tokenFound := false,
      retval := UA_STATUSCODE_GOOD, sys := sys }
  | ep :: rest, epFound, sys =>
    if endpointRejected sys.client.config ep then
      selectEndpointLoop env rest epFound sys
    else
      match ep.userIdentityTokens.find? (fun t => !userTokenRejected sys.client.config t) with
      | none => selectEndpointLoop env rest true sys
      | some tok =>
        let sys := { sys with client := { sys.client with config :=
            { sys.client.config with endpoint := zeroEndpointDescription,
                                     userTokenPolicy := zeroUserTokenPolicy } } }
        if env.copyEndpointStatus ≠ UA_STATUSCODE_GOOD then
          { endpointFound := true, tokenFound := true,
            retval := env.copyEndpointStatus, sys := sys }
        else
          let sys := { sys with client := { sys.client with config :=
              { sys.client.config with
                  endpoint := { ep with userIdentityTokens := [] } } } }
          if env.copyTokenStatus ≠ UA_STATUSCODE_GOOD then
            { endpointFound := true, tokenFound := true,
              retval := env.copyTokenStatus, sys := sys }
          else
            let sys := { sys with client := { sys.client with config :=
                { sys.client.config with userTokenPolicy := tok } } }
            { endpointFound := true, tokenFound := true,
              retval := UA_STATUSCODE_GOOD, sys := sys }

/-- `selectEndpoint` (ua_client_connect.c:243-408).
`UA_Client_getEndpointsInternal` is a synchronous service call whose
outcome (`serviceResult` and endpoint array) comes from the environment.
After the scan: a non-good `retval` (failed copy) is returned as is;
otherwise `endpointFound`/`tokenFound` decide between success and the two
logged internal errors. -/
def selectEndpoint (env : Env) (sys : Sys) : UA_StatusCode × Sys :=
  if env.getEndpointsStatus ≠ UA_STATUSCODE_GOOD then (env.getEndpointsStatus, sys)
  else
    let r := selectEndpointLoop env env.endpoints false sys
    if r.retval ≠ UA_STATUSCODE_GOOD then (r.retval, r.sys)
    else if !r.endpointFound then
      (UA_STATUSCODE_BADINTERNALERROR, r.sys.pushEvent UA_Event.logNoSuitableEndpoint)
    else if !r.tokenFound then
      (UA_STATUSCODE_BADINTERNALERROR,
       r.sys.pushEvent UA_Event.logNoSuitableUserTokenPolicy)
    else (UA_STATUSCODE_GOOD, r.sys)

/-! ## TCP + SecureChannel phase (ua_client_connect.c:410-497) -/

/-- The `cleanup:` label shared by the connect functions: disconnect, then
return the first error. -/
def connectCleanup (retval : UA_StatusCode) (sys : Sys) : UA_StatusCode × Sys :=
  (retval, (UA_Client_disconnect sys).2)

/-- The channel security mode reset (ua_client_connect.c:421-424): the
config's endpoint security mode, defaulting `INVALID` to `NONE`. -/
def channelModeFromEndpoint (securityMode : Nat) : Nat :=
  if securityMode = UA_MESSAGESECURITYMODE_INVALID then UA_MESSAGESECURITYMODE_NONE
  else securityMode

/-- The security-policy binding step of `UA_Client_connectTCPSecureChannel`
(ua_client_connect.c:426-455): if no policy is bound on the channel, look
one up by the configured endpoint's URI (empty URI means the #None policy);
a missing implementation is `BADINTERNALERROR`, and
`UA_SecureChannel_setSecurityPolicy` may fail (oracle status). -/
def bindSecurityPolicy (env : Env) (sys : Sys) : UA_StatusCode × Sys :=
  match sys.client.channelSecurityPolicyUri with
  | some _ => (UA_STATUSCODE_GOOD, sys)
  | none =>
    let sps :=
      if sys.client.config.endpoint.securityPolicyUri = "" then securityPolicyNoneUri
      else sys.client.config.endpoint.securityPolicyUri
    match getSecurityPolicy sys.client.config sps with
    | none => (UA_STATUSCODE_BADINTERNALERROR, sys)
    | some sp =>
      if env.setSecurityPolicyStatus ≠ UA_STATUSCODE_GOOD then
        (env.setSecurityPolicyStatus, sys)
      else
        (UA_STATUSCODE_GOOD,
         { sys with client := { sys.client with
             channelSecurityPolicyUri := some sp } })

/-- `UA_Client_connectTCPSecureChannel` (ua_client_connect.c:410-497). -/
def UA_Client_connectTCPSecureChannel (env : Env) (sys : Sys) : UA_StatusCode × Sys :=
  if UA_CLIENTSTATE_CONNECTED ≤ sys.client.state then (UA_STATUSCODE_GOOD, sys)
  else
    let sys := { sys with client := { sys.client with
        channelSecurityTokenId := 0,
        channelState := UA_SECURECHANNELSTATE_FRESH,
        channelSendSequenceNumber := 0,
        requestId := 0 } }
    let sys := { sys with client := { sys.client with
        channelSecurityMode :=
          channelModeFromEndpoint sys.client.config.endpoint.securityMode } }
    let bind := bindSecurityPolicy env sys
    if bind.1 ≠ UA_STATUSCODE_GOOD then connectCleanup bind.1 bind.2
    else
      let sys := { bind.2 with client := { bind.2.client with
          connectionState := env.connectionFuncState,
          connectionCloseSet := env.connectionFuncCloseSet } }
      if sys.client.connectionState ≠ UA_CONNECTION_OPENING then
        connectCleanup UA_STATUSCODE_BADCONNECTIONCLOSED sys
      else
        let hel := HelAckHandshake env sys
        if hel.1 ≠ UA_STATUSCODE_GOOD then connectCleanup hel.1 hel.2
        else
          let sys := setClientState hel.2 UA_CLIENTSTATE_CONNECTED
          let osc := openSecureChannel env false sys
          if osc.1 ≠ UA_STATUSCODE_GOOD then connectCleanup osc.1 osc.2
          else (osc.1, osc.2)

/-! ## Session phase (ua_client_connect.c:499-544) -/

/-- The session pump loop of `UA_Client_connectSession`
(ua_client_connect.c:526-542): while the state is not `SESSION`, check the
deadline, then run one iteration with the remaining time cast to
`UA_UInt16` — the C cast `(UA_UInt16)((maxTime - nowTime) /
UA_DATETIME_MSEC)` truncates modulo 2^16, modelled explicitly.  Fuel
exhaustion models the deadline passing (`BADTIMEOUT`). -/
def connectSessionLoop (env : Env) (maxTime : Int) :
    Nat → Int → Sys → UA_StatusCode × Sys
  | 0, _, sys => (UA_STATUSCODE_BADTIMEOUT, sys)
  | fuel+1, nowTime, sys =>
    if sys.client.state ≠ UA_CLIENTSTATE_SESSION then
      if maxTime < nowTime then (UA_STATUSCODE_BADTIMEOUT, sys)
      else
        let timeoutMs := (((maxTime - nowTime) / UA_DATETIME_MSEC).toNat) % 65536
        let sys := sys.pushEvent (UA_Event.ranIterate timeoutMs)
        let p := env.runIterate sys.pumpCalls
        let sys := (sys.tickPump).applyPump p
        if p.status ≠ UA_STATUSCODE_GOOD then (p.status, sys)
        else if sys.client.connectStatus ≠ UA_STATUSCODE_GOOD then
          (sys.client.connectStatus, sys)
        else
          let nowTime2 := env.clock sys.clockCalls
          connectSessionLoop env maxTime fuel nowTime2 sys.tickClock
    else (UA_STATUSCODE_GOOD, sys)

/-- `UA_Client_connectSession` (ua_client_connect.c:499-544). -/
def UA_Client_connectSession (env : Env) (sys : Sys) : UA_StatusCode × Sys :=
  if sys.client.state < UA_CLIENTSTATE_SECURECHANNEL then
    (UA_STATUSCODE_BADINTERNALERROR, sys)
  else
    let retval :=
      if sys.client.authenticationTokenIsNull then env.createSessionStatus
      else env.activateSessionStatus
    if retval ≠ UA_STATUSCODE_GOOD then (retval, sys)
    else
      let nowTime := env.clock sys.clockCalls
      let sys := sys.tickClock
      let maxTime := nowTime + (sys.client.config.timeout : Int) * UA_DATETIME_MSEC
      connectSessionLoop env maxTime env.sessionFuel nowTime sys

/-! ## Top-level connect (ua_client_connect.c:570-644) -/

/-- `endpointUnconfigured` (ua_client_connect.c:570-580): the bytewise-zero
test of the stored endpoint description and user token policy, modelled as
equality with the all-zero records. -/
def endpointUnconfigured (c : UA_Client) : Bool :=
  c.config.endpoint == zeroEndpointDescription &&
  c.config.userTokenPolicy == zeroUserTokenPolicy

/-- Reading `client->channel.securityPolicy->policyUri`
(ua_client_connect.c:617); the pointer is non-null whenever this line is
reached (the TCP/SecureChannel phase binds a policy), `""` stands for the
unreachable `NULL` dereference. -/
def channelPolicyUri (c : UA_Client) : String :=
  match c.channelSecurityPolicyUri with
  | some uri => uri
  | none => ""

/-- The session phase tail of `UA_Client_connectInternal`
(ua_client_connect.c:625-633): run `UA_Client_connectSession`, jumping to
`cleanup` on failure. -/
def connectSessionPhase (env : Env) (sys : Sys) : UA_StatusCode × Sys :=
  let s := UA_Client_connectSession env sys
  if s.1 ≠ UA_STATUSCODE_GOOD then connectCleanup s.1 s.2
  else (s.1, s.2)

/-- `UA_Client_connectInternal` (ua_client_connect.c:582-634).  The
recursive reconnect (line 621) consumes one unit of fuel and shifts the
environment stream; the fuel-exhausted base case is unreachable from any
fuel ≥ 2 (see `connectInternal_fuel_two_suffices`). -/
def UA_Client_connectInternal (envs : Nat → Env) :
    Nat → Sys → UA_StatusCode × Sys
  | 0, sys => (UA_STATUSCODE_BADINTERNALERROR, sys)
  | fuel+1, sys =>
    let env := envs 0
    if UA_CLIENTSTATE_CONNECTED ≤ sys.client.state then (UA_STATUSCODE_GOOD, sys)
    else
      let getEndpoints := endpointUnconfigured sys.client
      let tcp := UA_Client_connectTCPSecureChannel env sys
      if tcp.1 ≠ UA_STATUSCODE_GOOD then connectCleanup tcp.1 tcp.2
      else if getEndpoints then
        let sel := selectEndpoint env tcp.2
        if sel.1 ≠ UA_STATUSCODE_GOOD then connectCleanup sel.1 sel.2
        else if sel.2.client.config.endpoint.securityPolicyUri ≠ channelPolicyUri sel.2.client then
          let sys2 := (UA_Client_disconnect sel.2).2
          UA_Client_connectInternal (fun n => envs (n + 1)) fuel sys2
        else connectSessionPhase env sel.2
      else connectSessionPhase env tcp.2

/-- `UA_Client_connect` (ua_client_connect.c:636-639) forwards to
`UA_Client_connectInternal`. -/
def UA_Client_connect (envs : Nat → Env) (fuel : Nat) (sys : Sys) :
    UA_StatusCode × Sys :=
  UA_Client_connectInternal envs fuel sys

/-! ## Basic lemmas about the mutator and disconnect -/

theorem setClientState_client_state (sys : Sys) (s : Nat) :
    (setClientState sys s).client.state = s := by
  unfold setClientState
  split
  · dsimp only
    split <;> simp [Sys.pushEvent, Sys.setStateRaw]
  · simp_all

theorem UA_Client_disconnect_state (sys : Sys) :
    (UA_Client_disconnect sys).2.client.state = UA_CLIENTSTATE_DISCONNECTED := by
  simp [UA_Client_disconnect, setClientState_client_state]

theorem UA_Client_disconnect_fst (sys : Sys) :
    (UA_Client_disconnect sys).1 = UA_STATUSCODE_GOOD := by
  simp [UA_Client_disconnect]

theorem connectCleanup_client_state (r : UA_StatusCode) (sys : Sys) :
    (connectCleanup r sys).2.client.state = UA_CLIENTSTATE_DISCONNECTED := by
  simp [connectCleanup, UA_Client_disconnect_state]

theorem connectCleanup_fst (r : UA_StatusCode) (sys : Sys) :
    (connectCleanup r sys).1 = r := rfl

/-! ## C4: characterization of the endpoint filter -/

/-- Claim C4: an endpoint is rejected by the filter of `selectEndpoint` iff
its transport profile URI is nonempty and differs from the binary transport
URI, or its security mode is outside {1,2,3}, or the config's nonzero
security mode differs from it, or the config's nonempty security policy URI
differs from it, or no implemented security policy has the endpoint's
policy URI; in particular an endpoint with an empty transport profile URI
passes the transport check. -/
theorem endpointRejected_iff (cfg : UA_ClientConfig) (ep : UA_EndpointDescription) :
    endpointRejected cfg ep = true ↔
      ((ep.transportProfileUri ≠ "" ∧ ep.transportProfileUri ≠ binaryTransportProfileUri) ∨
       ep.securityMode ∉ ([1, 2, 3] : List Nat) ∨
       (0 < cfg.securityMode ∧ cfg.securityMode ≠ ep.securityMode) ∨
       (cfg.securityPolicyUri ≠ "" ∧ cfg.securityPolicyUri ≠ ep.securityPolicyUri) ∨
       (∀ p ∈ cfg.securityPolicies, p ≠ ep.securityPolicyUri)) := by
  have hfind : (getSecurityPolicy cfg ep.securityPolicyUri).isNone = true ↔
      ∀ p ∈ cfg.securityPolicies, p ≠ ep.securityPolicyUri := by
    simp [getSecurityPolicy, Option.isNone_iff_eq_none, List.find?_eq_none]
  have hmem : ep.securityMode ∉ ([1, 2, 3] : List Nat) ↔
      (ep.securityMode < 1 ∨ 3 < ep.securityMode) := by
    simp [List.mem_cons]
    omega
  have hbase : endpointRejected cfg ep = true ↔
      ((ep.transportProfileUri ≠ "" ∧ ep.transportProfileUri ≠ binaryTransportProfileUri) ∨
       (ep.securityMode < 1 ∨ 3 < ep.securityMode) ∨
       (0 < cfg.securityMode ∧ cfg.securityMode ≠ ep.securityMode) ∨
       (cfg.securityPolicyUri ≠ "" ∧ cfg.securityPolicyUri ≠ ep.securityPolicyUri) ∨
       (getSecurityPolicy cfg ep.securityPolicyUri).isNone = true) := by
    unfold endpointRejected
    split_ifs with h1 h2 h3 h4 h5 <;> simp_all
    tauto
  rw [hbase, hmem, ← hfind]

/-! ## C5 and C9: the renew short-circuit of openSecureChannel -/

/-- Claim C5: when the renewal deadline is strictly in the future,
`openSecureChannel(renew=true)` returns `GOOD`, sends nothing, and leaves
the client (channel, nonce, request id, `nextChannelRenewal`) and the trace
unchanged. -/
theorem openSecureChannel_renew_noop (env : Env) (sys : Sys)
    (h : env.clock sys.clockCalls < sys.client.nextChannelRenewal) :
    (openSecureChannel env true sys).1 = UA_STATUSCODE_GOOD ∧
    (openSecureChannel env true sys).2.client = sys.client ∧
    (openSecureChannel env true sys).2.trace = sys.trace := by
  simp [openSecureChannel, h, Sys.tickClock]

/-- Claim C9: the renew short-circuit is checked before the transport
precondition: on a non-established transport, `renew=true` with a future
deadline still returns `GOOD`, while an expired deadline or `renew=false`
returns `BADSERVERNOTCONNECTED`. -/
theorem openSecureChannel_renew_before_transport_check (env : Env) (sys : Sys)
    (hconn : sys.client.connectionState ≠ UA_CONNECTION_ESTABLISHED) :
    (env.clock sys.clockCalls < sys.client.nextChannelRenewal →
      (openSecureChannel env true sys).1 = UA_STATUSCODE_GOOD) ∧
    (sys.client.nextChannelRenewal ≤ env.clock sys.clockCalls →
      (openSecureChannel env true sys).1 = UA_STATUSCODE_BADSERVERNOTCONNECTED) ∧
    (openSecureChannel env false sys).1 = UA_STATUSCODE_BADSERVERNOTCONNECTED := by
  refine ⟨fun h => by simp [openSecureChannel, h], fun h => ?_, ?_⟩
  · simp [openSecureChannel, not_lt.mpr h, openSecureChannelBody, openSecureChannelSend,
      Sys.tickClock, hconn, UA_STATUSCODE_BADSERVERNOTCONNECTED, UA_STATUSCODE_GOOD]
  · simp [openSecureChannel, openSecureChannelBody, openSecureChannelSend, hconn,
      UA_STATUSCODE_BADSERVERNOTCONNECTED, UA_STATUSCODE_GOOD]

/-! ## C8: the renewal deadline pushed after sending the OPN request -/

/-- The OPN receive loop leaves `nextChannelRenewal` at its entry value as
long as the dispatcher has not delivered a renewal update (i.e. has not yet
processed the OpenSecureChannelResponse, which per spec §4.3 re-derives the
deadline from the revised lifetime). -/
theorem opnReceiveLoop_nextChannelRenewal (env : Env)
    (hpump : ∀ i, (env.opnPump i).newNextChannelRenewal = none)
    (maxDate : Int) (fuel : Nat) :
    ∀ sys : Sys, (opnReceiveLoop env maxDate fuel sys).2.client.nextChannelRenewal =
      sys.client.nextChannelRenewal := by
  induction fuel with
  | zero => intro sys; rfl
  | succ n ih =>
    intro sys
    unfold opnReceiveLoop
    split
    · simp [Sys.tickClock]
    · dsimp only
      split
      · rw [ih]
        simp [Sys.applyPump, Sys.tickPump, Sys.tickClock, hpump]
      · simp [Sys.applyPump, Sys.tickPump, Sys.tickClock, hpump]

/-- The send half succeeds and pushes the deadline to the clock reading at
the push plus `2·timeout` ms, whenever the transport is established and the
nonce and send oracles succeed. -/
theorem openSecureChannelSend_renewal (env : Env) (renew : Bool) (sys : Sys)
    (hconn : sys.client.connectionState = UA_CONNECTION_ESTABLISHED)
    (hnonce : env.generateNonceStatus = UA_STATUSCODE_GOOD)
    (hsend : env.sendOPNStatus = UA_STATUSCODE_GOOD) :
    (openSecureChannelSend env renew sys).1 = UA_STATUSCODE_GOOD ∧
    (openSecureChannelSend env renew sys).2.client.nextChannelRenewal =
      env.clock sys.clockCalls +
        2 * ((sys.client.config.timeout : Int) * UA_DATETIME_MSEC) := by
  unfold openSecureChannelSend
  simp only [hconn, hnonce, hsend, ne_eq, not_true_eq_false, if_false,
    ite_false, not_false_eq_true]
  simp [Sys.pushEvent, Sys.tickClock]

/-- Claim C8: in every execution of `openSecureChannel` that reaches the
point after the OPN request was successfully sent (transport established,
nonce generated, send succeeded), `nextChannelRenewal` is set to the
monotonic time read at that point plus `2 * timeout` milliseconds in
datetime ticks, and (for a positive timeout) lies strictly after that clock
reading; it keeps exactly that value while the OPN response is awaited,
i.e. through the whole receive loop as long as the dispatcher has not
processed the OpenSecureChannelResponse (whose processing re-derives the
deadline, an effect of the dispatcher oracle). -/
theorem openSecureChannel_sets_renewal (env : Env) (renew : Bool) (sys : Sys)
    (hconn : sys.client.connectionState = UA_CONNECTION_ESTABLISHED)
    (hnonce : env.generateNonceStatus = UA_STATUSCODE_GOOD)
    (hsend : env.sendOPNStatus = UA_STATUSCODE_GOOD) :
    (openSecureChannelSend env renew sys).1 = UA_STATUSCODE_GOOD ∧
    (openSecureChannelSend env renew sys).2.client.nextChannelRenewal =
      env.clock sys.clockCalls +
        2 * ((sys.client.config.timeout : Int) * UA_DATETIME_MSEC) ∧
    (0 < sys.client.config.timeout →
      env.clock sys.clockCalls <
        (openSecureChannelSend env renew sys).2.client.nextChannelRenewal) ∧
    ((∀ i, (env.opnPump i).newNextChannelRenewal = none) →
     (renew = true → sys.client.nextChannelRenewal ≤ env.clock sys.clockCalls) →
      (openSecureChannel env renew sys).2.client.nextChannelRenewal =
        env.clock (if renew then sys.clockCalls + 1 else sys.clockCalls) +
          2 * ((sys.client.config.timeout : Int) * UA_DATETIME_MSEC)) := by
  obtain ⟨hgood, hval⟩ := openSecureChannelSend_renewal env renew sys hconn hnonce hsend
  refine ⟨hgood, hval, fun ht => ?_, fun hpump hsc => ?_⟩
  · rw [hval]
    unfold UA_DATETIME_MSEC
    omega
  · have hbody : ∀ sys' : Sys, sys'.client = sys.client →
        (openSecureChannelBody env renew sys').2.client.nextChannelRenewal =
          env.clock sys'.clockCalls +
            2 * ((sys.client.config.timeout : Int) * UA_DATETIME_MSEC) := by
      intro sys' hcl
      obtain ⟨hgood', hval'⟩ := openSecureChannelSend_renewal env renew sys'
        (by rw [hcl]; exact hconn) hnonce hsend
      unfold openSecureChannelBody
      rw [if_neg (by simp [hgood'])]
      rw [opnReceiveLoop_nextChannelRenewal env hpump]
      simp only [Sys.tickClock]
      rw [hval', hcl]
    cases renew with
    | false =>
      simpa using hbody sys rfl
    | true =>
      have hle := hsc rfl
      unfold openSecureChannel
      rw [if_pos rfl, if_neg (not_lt.mpr hle)]
      simpa [Sys.tickClock] using hbody sys.tickClock rfl

/-! ## Concrete inputs for the witnesses -/

/-- A baseline well-behaved environment for witnesses: every external call
succeeds, the clock is frozen at 0, the dispatcher lifts the state. -/
def envBase : Env :=
  { clock := fun _ => 0,
    getSendBufferStatus := UA_STATUSCODE_GOOD,
    encodeHelloStatus := UA_STATUSCODE_GOOD,
    encodeHeaderStatus := UA_STATUSCODE_GOOD,
    sendHelStatus := UA_STATUSCODE_GOOD,
    ackChunk := some (UA_STATUSCODE_GOOD, UA_STATUSCODE_GOOD),
    receiveChunksStatus := UA_STATUSCODE_GOOD,
    setSecurityPolicyStatus := UA_STATUSCODE_GOOD,
    connectionFuncState := UA_CONNECTION_OPENING,
    connectionFuncCloseSet := true,
    generateNonceStatus := UA_STATUSCODE_GOOD,
    nonceValue := 7,
    sendOPNStatus := UA_STATUSCODE_GOOD,
    opnPump := fun _ =>
      { status := UA_STATUSCODE_GOOD, newState := some UA_CLIENTSTATE_SECURECHANNEL,
        newConnectStatus := none, newNextChannelRenewal := none },
    opnFuel := 4,
    getEndpointsStatus := UA_STATUSCODE_GOOD,
    endpoints := [],
    copyEndpointStatus := UA_STATUSCODE_GOOD,
    copyTokenStatus := UA_STATUSCODE_GOOD,
    createSessionStatus := UA_STATUSCODE_GOOD,
    activateSessionStatus := UA_STATUSCODE_GOOD,
    runIterate := fun _ =>
      { status := UA_STATUSCODE_GOOD, newState := some UA_CLIENTSTATE_SESSION,
        newConnectStatus := none, newNextChannelRenewal := none },
    sessionFuel := 4 }

/-- A baseline client configuration: None security, anonymous identity,
only the #None policy implemented, observer installed. -/
def cfgBase : UA_ClientConfig :=
  { timeout := 1000,
    secureChannelLifeTime := 600000,
    securityMode := 0,
    securityPolicyUri := "",
    securityPolicies := [securityPolicyNoneUri],
    userIdentityTokenType := UserIdentityType.nullType,
    endpoint := zeroEndpointDescription,
    userTokenPolicy := zeroUserTokenPolicy,
    stateCallbackSet := true }

/-- A freshly initialized, disconnected client. -/
def clientBase : UA_Client :=
  { state := UA_CLIENTSTATE_DISCONNECTED,
    connectionState := UA_CONNECTION_CLOSED,
    connectionCloseSet := false,
    channelState := UA_SECURECHANNELSTATE_FRESH,
    channelSecurityPolicyUri := none,
    channelSecurityMode := 0,
    channelLocalNonce := 0,
    channelSendSequenceNumber := 0,
    channelSecurityTokenId := 0,
    nextChannelRenewal := 0,
    requestId := 0,
    requestHandle := 0,
    authenticationTokenIsNull := true,
    connectStatus := UA_STATUSCODE_GOOD,
    config := cfgBase }

def sysBase : Sys :=
  { client := clientBase, trace := [], clockCalls := 0, pumpCalls := 0 }

/-- C5 witness input: a client whose renewal deadline (5) is strictly after
the frozen clock (0). -/
def sysRenewalFuture : Sys :=
  { sysBase with client := { clientBase with nextChannelRenewal := 5 } }

/-- Witness for C5 at a concrete client with a future renewal deadline. -/
theorem openSecureChannel_renew_noop_witness :
    (openSecureChannel envBase true sysRenewalFuture).1 = UA_STATUSCODE_GOOD ∧
    (openSecureChannel envBase true sysRenewalFuture).2.client = sysRenewalFuture.client ∧
    (openSecureChannel envBase true sysRenewalFuture).2.trace = sysRenewalFuture.trace :=
  openSecureChannel_renew_noop envBase sysRenewalFuture (by decide)

/-- Witness for C9 at a concrete client whose transport is closed. -/
theorem openSecureChannel_renew_before_transport_check_witness :
    (envBase.clock sysRenewalFuture.clockCalls < sysRenewalFuture.client.nextChannelRenewal →
      (openSecureChannel envBase true sysRenewalFuture).1 = UA_STATUSCODE_GOOD) ∧
    (sysRenewalFuture.client.nextChannelRenewal ≤ envBase.clock sysRenewalFuture.clockCalls →
      (openSecureChannel envBase true sysRenewalFuture).1 = UA_STATUSCODE_BADSERVERNOTCONNECTED) ∧
    (openSecureChannel envBase false sysRenewalFuture).1 = UA_STATUSCODE_BADSERVERNOTCONNECTED :=
  openSecureChannel_renew_before_transport_check envBase sysRenewalFuture (by decide)

/-- C8 witness input: an established transport. -/
def sysEstablished : Sys :=
  { sysBase with client := { clientBase with
      connectionState := UA_CONNECTION_ESTABLISHED } }

/-- Witness for C8 at a concrete established client (renew = false, so the
deadline is read at clock call 0; timeout 1000 ms gives 2·10^7 ticks). -/
theorem openSecureChannel_sets_renewal_witness :
    (openSecureChannelSend envBase false sysEstablished).1 = UA_STATUSCODE_GOOD ∧
    (openSecureChannelSend envBase false sysEstablished).2.client.nextChannelRenewal =
      envBase.clock sysEstablished.clockCalls +
        2 * ((sysEstablished.client.config.timeout : Int) * UA_DATETIME_MSEC) ∧
    (0 < sysEstablished.client.config.timeout →
      envBase.clock sysEstablished.clockCalls <
        (openSecureChannelSend envBase false sysEstablished).2.client.nextChannelRenewal) ∧
    ((∀ i, (envBase.opnPump i).newNextChannelRenewal = none) →
     (false = true → sysEstablished.client.nextChannelRenewal ≤
        envBase.clock sysEstablished.clockCalls) →
      (openSecureChannel envBase false sysEstablished).2.client.nextChannelRenewal =
        envBase.clock (if false then sysEstablished.clockCalls + 1
          else sysEstablished.clockCalls) +
          2 * ((sysEstablished.client.config.timeout : Int) * UA_DATETIME_MSEC)) :=
  openSecureChannel_sets_renewal envBase false sysEstablished
    (by decide) (by decide) (by decide)

/-! ## C1: every failing connect leaves the client disconnected -/

theorem connectTCPSecureChannel_fail_state (env : Env) (sys : Sys) :
    (UA_Client_connectTCPSecureChannel env sys).1 ≠ UA_STATUSCODE_GOOD →
    (UA_Client_connectTCPSecureChannel env sys).2.client.state =
      UA_CLIENTSTATE_DISCONNECTED := by
  unfold UA_Client_connectTCPSecureChannel
  dsimp only
  split_ifs with h1 h2 h3 h4 h5 <;> intro h
  · exact absurd rfl h
  · exact connectCleanup_client_state _ _
  · exact connectCleanup_client_state _ _
  · exact connectCleanup_client_state _ _
  · exact connectCleanup_client_state _ _
  · exact absurd h h5

theorem connectSessionPhase_fail_state (env : Env) (sys : Sys) :
    (connectSessionPhase env sys).1 ≠ UA_STATUSCODE_GOOD →
    (connectSessionPhase env sys).2.client.state = UA_CLIENTSTATE_DISCONNECTED := by
  unfold connectSessionPhase
  dsimp only
  split_ifs with h1 <;> intro h
  · exact connectCleanup_client_state _ _
  · exact absurd h h1

theorem connectInternal_fail_state (fuel : Nat) :
    ∀ (envs : Nat → Env) (sys : Sys),
      (UA_Client_connectInternal envs fuel sys).1 ≠ UA_STATUSCODE_GOOD →
      (UA_Client_connectInternal envs fuel sys).2.client.state =
          UA_CLIENTSTATE_DISCONNECTED ∨
        (fuel = 0 ∧ (UA_Client_connectInternal envs fuel sys).2 = sys) := by
  induction fuel with
  | zero => intro envs sys h; exact Or.inr ⟨rfl, rfl⟩
  | succ n ih =>
    intro envs sys h
    left
    unfold UA_Client_connectInternal at h ⊢
    by_cases h0 : UA_CLIENTSTATE_CONNECTED ≤ sys.client.state
    · simp [h0] at h
    · simp only [h0, if_false, ite_false] at h ⊢
      split_ifs at h ⊢ with h1 h2 h3 h4
      · exact connectCleanup_client_state _ _
      · exact connectCleanup_client_state _ _
      · -- recursive reconnect after the disconnect at line 620
        rcases ih _ _ h with h' | ⟨_, heq⟩
        · exact h'
        · rw [heq]
          exact UA_Client_disconnect_state _
      · exact connectSessionPhase_fail_state _ _ h
      · exact connectSessionPhase_fail_state _ _ h

/-- Claim C1: whenever `UA_Client_connectInternal` (hence `UA_Client_connect`)
returns a non-good status — whatever phase failed — the rollback path has
run and the client state on return is `Disconnected`. -/
theorem connect_failure_leaves_disconnected (envs : Nat → Env) (fuel : Nat) (sys : Sys)
    (h : (UA_Client_connectInternal envs (fuel + 1) sys).1 ≠ UA_STATUSCODE_GOOD) :
    (UA_Client_connectInternal envs (fuel + 1) sys).2.client.state =
      UA_CLIENTSTATE_DISCONNECTED := by
  rcases connectInternal_fail_state (fuel + 1) envs sys h with h' | ⟨h0, _⟩
  · exact h'
  · exact absurd h0 (Nat.succ_ne_zero fuel)

/-! ## C6: the recursive reconnect has depth at most one -/

theorem setClientState_client_config (sys : Sys) (s : Nat) :
    (setClientState sys s).client.config = sys.client.config := by
  unfold setClientState
  split
  · dsimp only
    split <;> simp [Sys.pushEvent, Sys.setStateRaw]
  · rfl

theorem sendCloseSession_config (sys : Sys) :
    (sendCloseSession sys).client.config = sys.client.config := by
  simp [sendCloseSession, Sys.pushEvent]

theorem sendCloseSecureChannel_config (sys : Sys) :
    (sendCloseSecureChannel sys).client.config = sys.client.config := by
  simp [sendCloseSecureChannel, Sys.pushEvent, UA_SecureChannel_deleteMembers]

theorem closeConnection_config (sys : Sys) :
    (closeConnection sys).client.config = sys.client.config := by
  simp [closeConnection, Sys.pushEvent]

/-- `UA_Client_disconnect` never touches the configuration (in particular
the selected endpoint survives the disconnect before the reconnect). -/
theorem UA_Client_disconnect_config (sys : Sys) :
    (UA_Client_disconnect sys).2.client.config = sys.client.config := by
  unfold UA_Client_disconnect
  dsimp only
  rw [setClientState_client_config]
  split_ifs <;>
    simp [sendCloseSession_config, sendCloseSecureChannel_config,
      closeConnection_config, UA_SecureChannel_deleteMembers, Sys.pushEvent,
      Sys.setStateRaw]

theorem endpointRejected_false_securityMode (cfg : UA_ClientConfig)
    (ep : UA_EndpointDescription) (h : endpointRejected cfg ep = false) :
    1 ≤ ep.securityMode ∧ ep.securityMode ≤ 3 := by
  unfold endpointRejected at h
  split_ifs at h with h1 h2 h3 h4 h5
  omega

/-- If the scan loop committed (`tokenFound`) and its `retval` is good, the
stored endpoint is the committed one, whose security mode passed the filter
(so it is at least 1). -/
theorem selectEndpointLoop_good_mode (env : Env) :
    ∀ (eps : List UA_EndpointDescription) (acc : Bool) (sys : Sys),
      (selectEndpointLoop env eps acc sys).tokenFound = true →
      (selectEndpointLoop env eps acc sys).retval = UA_STATUSCODE_GOOD →
      1 ≤ (selectEndpointLoop env eps acc sys).sys.client.config.endpoint.securityMode := by
  intro eps
  induction eps with
  | nil =>
    intro acc sys h _
    simp [selectEndpointLoop] at h
  | cons ep rest ih =>
    intro acc sys h hr
    unfold selectEndpointLoop at h hr ⊢
    by_cases hrej : endpointRejected sys.client.config ep = true
    · simp only [hrej, if_true] at h hr ⊢
      exact ih acc sys h hr
    · rw [Bool.not_eq_true] at hrej
      simp only [hrej, Bool.false_eq_true, if_false] at h hr ⊢
      rcases hfind : ep.userIdentityTokens.find?
          (fun t => !userTokenRejected sys.client.config t) with _ | tok
      · rw [hfind] at h hr
        dsimp only at h hr ⊢
        exact ih true sys h hr
      · rw [hfind] at h hr
        dsimp only at h hr ⊢
        by_cases hce : env.copyEndpointStatus ≠ UA_STATUSCODE_GOOD
        · rw [if_pos hce] at hr
          exact absurd hr hce
        · rw [if_neg hce] at hr ⊢
          by_cases hct : env.copyTokenStatus ≠ UA_STATUSCODE_GOOD
          · rw [if_pos hct] at hr
            exact absurd hr hct
          · rw [if_neg hct]
            exact (endpointRejected_false_securityMode _ _ hrej).1

/-- A good `selectEndpoint` stores an endpoint whose security mode is
nonzero. -/
theorem selectEndpoint_good_mode (env : Env) (sys : Sys)
    (h : (selectEndpoint env sys).1 = UA_STATUSCODE_GOOD) :
    1 ≤ (selectEndpoint env sys).2.client.config.endpoint.securityMode := by
  unfold selectEndpoint at h ⊢
  by_cases hge : env.getEndpointsStatus ≠ UA_STATUSCODE_GOOD
  · rw [if_pos hge] at h
    exact absurd h hge
  · rw [if_neg hge] at h ⊢
    dsimp only at h ⊢
    split_ifs at h ⊢ with h1 h2 h3
    · exact absurd h h1
    · simp only [] at h
      exact absurd h (by decide)
    · simp only [] at h
      exact absurd h (by decide)
    · have h3' : (selectEndpointLoop env env.endpoints false sys).tokenFound = true := by
        simpa using h3
      have h1' : (selectEndpointLoop env env.endpoints false sys).retval =
          UA_STATUSCODE_GOOD := by simpa using h1
      exact selectEndpointLoop_good_mode env env.endpoints false sys h3' h1'

theorem endpointUnconfigured_false_of_mode (c : UA_Client)
    (h : 1 ≤ c.config.endpoint.securityMode) :
    endpointUnconfigured c = false := by
  unfold endpointUnconfigured
  have hne : c.config.endpoint ≠ zeroEndpointDescription := by
    intro he
    rw [he] at h
    simp [zeroEndpointDescription] at h
  rw [beq_eq_false_iff_ne.mpr hne]
  rfl

/-- With a configured endpoint, the fuel (recursion budget) of
`UA_Client_connectInternal` is irrelevant beyond one unit: the
`getEndpoints` branch, the only consumer of fuel, is not taken. -/
theorem connectInternal_fuel_irrelevant (envs : Nat → Env) (a b : Nat) (sys : Sys)
    (h : endpointUnconfigured sys.client = false) :
    UA_Client_connectInternal envs (a + 1) sys =
    UA_Client_connectInternal envs (b + 1) sys := by
  unfold UA_Client_connectInternal
  simp only [h, Bool.false_eq_true, if_false]

theorem connectInternal_fuel_irrelevant_after_reconnect (envs : Nat → Env)
    (a b : Nat) (env0 : Env) (s : Sys)
    (hsel : (selectEndpoint env0 s).1 = UA_STATUSCODE_GOOD) :
    UA_Client_connectInternal envs (a + 1)
        (UA_Client_disconnect (selectEndpoint env0 s).2).2 =
    UA_Client_connectInternal envs (b + 1)
        (UA_Client_disconnect (selectEndpoint env0 s).2).2 := by
  apply connectInternal_fuel_irrelevant
  apply endpointUnconfigured_false_of_mode
  rw [UA_Client_disconnect_config]
  exact selectEndpoint_good_mode env0 s hsel

theorem connectInternal_depth (envs : Nat → Env) (a b : Nat) (sys : Sys) :
    UA_Client_connectInternal envs (a + 1 + 1) sys =
    UA_Client_connectInternal envs (b + 1 + 1) sys := by
  unfold UA_Client_connectInternal
  dsimp only
  split_ifs with h1 h2 h3 h4 h5
  · rfl
  · rfl
  · rfl
  · exact connectInternal_fuel_irrelevant_after_reconnect _ a b _ _ (not_ne_iff.mp h4)
  · rfl
  · rfl

/-- Claim C6: the recursive reconnect of `UA_Client_connectInternal` has
depth at most one — after a successful endpoint selection the stored
endpoint description is no longer all-zero, so the second pass skips
`GetEndpoints` and never recurses; a fuel budget of 2 yields the same
result as any larger budget, for every environment, so connect terminates. -/
theorem connect_recursion_depth_at_most_one (envs : Nat → Env) (n : Nat) (sys : Sys) :
    UA_Client_connectInternal envs (n + 2) sys =
    UA_Client_connectInternal envs 2 sys :=
  connectInternal_depth envs n 0 sys

/-! ## C7: disconnect is idempotent -/

theorem setClientState_client_connection (sys : Sys) (s : Nat) :
    (setClientState sys s).client.connectionState = sys.client.connectionState ∧
    (setClientState sys s).client.connectionCloseSet = sys.client.connectionCloseSet := by
  unfold setClientState
  split
  · dsimp only
    split <;> simp [Sys.pushEvent, Sys.setStateRaw]
  · exact ⟨rfl, rfl⟩

/-- After `UA_Client_disconnect`, the transport is closed, or was still
opening, or has no `close` callback — so a second disconnect has no
transport to close. -/
theorem closeStep_connection (s1 : Sys) :
    (if s1.client.connectionState ≠ UA_CONNECTION_CLOSED ∧
        s1.client.connectionState ≠ UA_CONNECTION_OPENING then
       if s1.client.connectionCloseSet then closeConnection s1 else s1
     else s1).client.connectionState = UA_CONNECTION_CLOSED ∨
    (if s1.client.connectionState ≠ UA_CONNECTION_CLOSED ∧
        s1.client.connectionState ≠ UA_CONNECTION_OPENING then
       if s1.client.connectionCloseSet then closeConnection s1 else s1
     else s1).client.connectionState = UA_CONNECTION_OPENING ∨
    (if s1.client.connectionState ≠ UA_CONNECTION_CLOSED ∧
        s1.client.connectionState ≠ UA_CONNECTION_OPENING then
       if s1.client.connectionCloseSet then closeConnection s1 else s1
     else s1).client.connectionCloseSet = false := by
  split_ifs with hc hcs
  · left
    simp [closeConnection, Sys.pushEvent]
  · right; right
    simpa using hcs
  · rcases not_and_or.mp hc with h | h
    · left
      simpa using h
    · right; left
      simpa using h

theorem UA_Client_disconnect_connection (sys : Sys) :
    (UA_Client_disconnect sys).2.client.connectionState = UA_CONNECTION_CLOSED ∨
    (UA_Client_disconnect sys).2.client.connectionState = UA_CONNECTION_OPENING ∨
    (UA_Client_disconnect sys).2.client.connectionCloseSet = false := by
  unfold UA_Client_disconnect
  dsimp only
  rw [(setClientState_client_connection _ _).1, (setClientState_client_connection _ _).2]
  simp only [UA_SecureChannel_deleteMembers, Sys.pushEvent]
  exact closeStep_connection _

/-- A disconnect of an already-disconnected client (with nothing left to
close) only cancels the pending asynchronous services: it sends no
CloseSession, no CloseSecureChannel, and fires no observer callback. -/
theorem UA_Client_disconnect_trace_of_disconnected (sys : Sys)
    (hs : sys.client.state = UA_CLIENTSTATE_DISCONNECTED)
    (hc : sys.client.connectionState = UA_CONNECTION_CLOSED ∨
          sys.client.connectionState = UA_CONNECTION_OPENING ∨
          sys.client.connectionCloseSet = false) :
    (UA_Client_disconnect sys).2.trace =
      sys.trace ++ [UA_Event.removedAsyncServices UA_STATUSCODE_BADSHUTDOWN] := by
  rcases hc with hc | hc | hc <;>
    simp [UA_Client_disconnect, setClientState, Sys.setStateRaw, Sys.pushEvent,
      UA_SecureChannel_deleteMembers, hs, hc, UA_CLIENTSTATE_SESSION,
      UA_CLIENTSTATE_SECURECHANNEL, UA_CLIENTSTATE_DISCONNECTED,
      UA_CONNECTION_CLOSED, UA_CONNECTION_OPENING]

/-- Claim C7: `UA_Client_disconnect` is idempotent — from every starting
client state both consecutive calls return `GOOD`, the state after the
second call is `Disconnected`, and the second call emits no CloseSession
and no CloseSecureChannel message (its only effect is cancelling pending
asynchronous services again). -/
theorem disconnect_idempotent (sys : Sys) :
    (UA_Client_disconnect sys).1 = UA_STATUSCODE_GOOD ∧
    (UA_Client_disconnect (UA_Client_disconnect sys).2).1 = UA_STATUSCODE_GOOD ∧
    (UA_Client_disconnect (UA_Client_disconnect sys).2).2.client.state =
      UA_CLIENTSTATE_DISCONNECTED ∧
    (UA_Client_disconnect (UA_Client_disconnect sys).2).2.trace =
      (UA_Client_disconnect sys).2.trace ++
        [UA_Event.removedAsyncServices UA_STATUSCODE_BADSHUTDOWN] :=
  ⟨UA_Client_disconnect_fst sys, UA_Client_disconnect_fst _,
   UA_Client_disconnect_state _,
   UA_Client_disconnect_trace_of_disconnected _ (UA_Client_disconnect_state sys)
     (UA_Client_disconnect_connection sys)⟩

/-! ## C2: observer fires only through the mutator (corrected) -/

/-- C2 concrete input: a client with an active session, an established
transport and an installed observer. -/
def sysSessionActive : Sys :=
  { client := { clientBase with
      state := UA_CLIENTSTATE_SESSION,
      connectionState := UA_CONNECTION_ESTABLISHED,
      connectionCloseSet := true },
    trace := [], clockCalls := 0, pumpCalls := 0 }

/-- Counterexample to claim C2 as stated: disconnecting a session-state
client changes the `ClientState` value three times (Session to
SecureChannel to Connected to Disconnected), but the observer fires exactly
once, with `Disconnected` — the demotions at ua_client_connect.c:701 and
:709 are raw writes that bypass `setClientState` and fire nothing. -/
theorem observer_per_state_change_counterexample :
    (UA_Client_disconnect sysSessionActive).2.client.state =
      UA_CLIENTSTATE_DISCONNECTED ∧
    List.filter isStateChangeEvent (UA_Client_disconnect sysSessionActive).2.trace =
      [UA_Event.stateChange UA_CLIENTSTATE_DISCONNECTED] ∧
    UA_Event.stateChange UA_CLIENTSTATE_SECURECHANNEL ∉
      (UA_Client_disconnect sysSessionActive).2.trace ∧
    UA_Event.stateChange UA_CLIENTSTATE_CONNECTED ∉
      (UA_Client_disconnect sysSessionActive).2.trace := by
  decide

/-- Claim C2 (amended): a write of the `ClientState` that goes through the
mutator `setClientState` fires the installed observer exactly once per
actual change, with the new value, and a write of the current value does
not fire; but the demotions inside `UA_Client_disconnect` are raw writes
that bypass the mutator, so disconnecting from the session state fires the
observer exactly once, with `Disconnected`. -/
theorem state_observer_via_mutator_only (sys : Sys) (s : Nat)
    (hcb : sys.client.config.stateCallbackSet = true) :
    ((setClientState sys s).trace =
      if sys.client.state = s then sys.trace
      else sys.trace ++ [UA_Event.stateChange s]) ∧
    (setClientState sys s).client.state = s ∧
    (sys.client.state = UA_CLIENTSTATE_SESSION →
      List.filter isStateChangeEvent (UA_Client_disconnect sys).2.trace =
        List.filter isStateChangeEvent sys.trace ++
          [UA_Event.stateChange UA_CLIENTSTATE_DISCONNECTED]) := by
  refine ⟨?_, setClientState_client_state sys s, fun hs => ?_⟩
  · unfold setClientState
    split_ifs with h h2 <;> simp_all [Sys.pushEvent, Sys.setStateRaw]
  · unfold UA_Client_disconnect
    dsimp only
    split_ifs with hsess hsc hconn hclose <;>
      simp_all [sendCloseSession, sendCloseSecureChannel, setClientState,
        Sys.setStateRaw, Sys.pushEvent, UA_SecureChannel_deleteMembers,
        closeConnection, isStateChangeEvent, UA_CLIENTSTATE_SESSION,
        UA_CLIENTSTATE_SECURECHANNEL, UA_CLIENTSTATE_CONNECTED,
        UA_CLIENTSTATE_DISCONNECTED, List.filter_append]

/-- Witness for the amended C2 at a concrete session-state client. -/
theorem state_observer_via_mutator_only_witness :
    ((setClientState sysSessionActive UA_CLIENTSTATE_CONNECTED).trace =
      if sysSessionActive.client.state = UA_CLIENTSTATE_CONNECTED then
        sysSessionActive.trace
      else sysSessionActive.trace ++ [UA_Event.stateChange UA_CLIENTSTATE_CONNECTED]) ∧
    (setClientState sysSessionActive UA_CLIENTSTATE_CONNECTED).client.state =
      UA_CLIENTSTATE_CONNECTED ∧
    (sysSessionActive.client.state = UA_CLIENTSTATE_SESSION →
      List.filter isStateChangeEvent (UA_Client_disconnect sysSessionActive).2.trace =
        List.filter isStateChangeEvent sysSessionActive.trace ++
          [UA_Event.stateChange UA_CLIENTSTATE_DISCONNECTED]) :=
  state_observer_via_mutator_only sysSessionActive UA_CLIENTSTATE_CONNECTED (by decide)

/-! ## C3: which endpoint does selectEndpoint commit to? (corrected) -/

/-- The first user token policy of an endpoint that the client accepts
(the inner loop of ua_client_connect.c:298-336). -/
def acceptableToken (cfg : UA_ClientConfig) (ep : UA_EndpointDescription) :
    Option UA_UserTokenPolicy :=
  ep.userIdentityTokens.find? (fun t => !userTokenRejected cfg t)

/-- The first endpoint of the server's list that passes the filter AND has
an acceptable user token policy — the pair `selectEndpoint` commits to. -/
def acceptedEndpoint (cfg : UA_ClientConfig) (eps : List UA_EndpointDescription) :
    Option UA_EndpointDescription :=
  eps.find? (fun ep => !endpointRejected cfg ep && (acceptableToken cfg ep).isSome)

/-- The scan loop on a list with no accepted (endpoint, token) pair:
nothing is committed, `tokenFound` stays false, and `endpointFound` records
whether any endpoint passed the filter. -/
theorem selectEndpointLoop_none (env : Env) :
    ∀ (eps : List UA_EndpointDescription) (acc : Bool) (sys : Sys),
      acceptedEndpoint sys.client.config eps = none →
      selectEndpointLoop env eps acc sys =
        { endpointFound :=
            acc || eps.any (fun e => !endpointRejected sys.client.config e),
          tokenFound := false, retval := UA_STATUSCODE_GOOD, sys := sys } := by
  intro eps
  induction eps with
  | nil =>
    intro acc sys _
    simp [selectEndpointLoop]
  | cons e rest ih =>
    intro acc sys hf
    rw [acceptedEndpoint, List.find?_cons] at hf
    unfold selectEndpointLoop
    by_cases hrej : endpointRejected sys.client.config e = true
    · rw [if_pos hrej]
      split at hf
      · simp_all
      · rw [ih acc sys hf]
        simp [hrej]
    · rw [Bool.not_eq_true] at hrej
      rw [if_neg (by simp [hrej])]
      rcases hfind : e.userIdentityTokens.find?
          (fun t => !userTokenRejected sys.client.config t) with _ | tok
      · dsimp only
        split at hf
        · simp_all [acceptableToken, hfind]
        · rw [ih true sys hf]
          simp [hrej]
      · exfalso
        split at hf
        · simp_all
        · simp_all [acceptableToken, hfind]

/-- The scan loop on a list whose first accepted pair is (`ep`, `tok`),
with the two deep copies succeeding: the loop stops at that pair and stores
it (the token list of the stored endpoint cleared). -/
theorem selectEndpointLoop_found (env : Env) :
    ∀ (eps : List UA_EndpointDescription) (acc : Bool) (sys : Sys)
      (ep : UA_EndpointDescription) (tok : UA_UserTokenPolicy),
      acceptedEndpoint sys.client.config eps = some ep →
      acceptableToken sys.client.config ep = some tok →
      env.copyEndpointStatus = UA_STATUSCODE_GOOD →
      env.copyTokenStatus = UA_STATUSCODE_GOOD →
      selectEndpointLoop env eps acc sys =
        { endpointFound := true, tokenFound := true, retval := UA_STATUSCODE_GOOD,
          sys := { sys with client := { sys.client with config :=
            { sys.client.config with
                endpoint := { ep with userIdentityTokens := [] },
                userTokenPolicy := tok } } } } := by
  intro eps
  induction eps with
  | nil =>
    intro acc sys ep tok hf
    simp [acceptedEndpoint] at hf
  | cons e rest ih =>
    intro acc sys ep tok hf htok hce hct
    rw [acceptedEndpoint, List.find?_cons] at hf
    unfold selectEndpointLoop
    by_cases hrej : endpointRejected sys.client.config e = true
    · rw [if_pos hrej]
      rw [show (!endpointRejected sys.client.config e &&
          (acceptableToken sys.client.config e).isSome) = false by simp [hrej]] at hf
      dsimp only at hf
      exact ih acc sys ep tok hf htok hce hct
    · rw [Bool.not_eq_true] at hrej
      rw [if_neg (by simp [hrej])]
      rcases hfind : e.userIdentityTokens.find?
          (fun t => !userTokenRejected sys.client.config t) with _ | tok'
      · dsimp only
        rw [show (!endpointRejected sys.client.config e &&
            (acceptableToken sys.client.config e).isSome) = false by
          simp [acceptableToken, hfind]] at hf
        dsimp only at hf
        exact ih true sys ep tok hf htok hce hct
      · rw [show (!endpointRejected sys.client.config e &&
            (acceptableToken sys.client.config e).isSome) = true by
          simp [hrej, acceptableToken, hfind]] at hf
        dsimp only at hf
        injection hf with he
        subst he
        rw [acceptableToken, hfind] at htok
        injection htok with ht
        subst ht
        dsimp only
        rw [if_neg (by simp [hce]), if_neg (by simp [hct])]

/-- Claim C3 (amended): `selectEndpoint` commits to the first endpoint that
passes the filter AND contains an acceptable token policy; a passing
endpoint with no acceptable token does not stop the scan — later endpoints
are still considered.  "No suitable endpoint found" is logged iff no
endpoint passes the filter; "No suitable UserTokenPolicy found" is logged
iff some endpoint passes but no passing endpoint has an acceptable token. -/
theorem selectEndpoint_first_passing_with_token (env : Env) (sys : Sys)
    (hge : env.getEndpointsStatus = UA_STATUSCODE_GOOD)
    (hce : env.copyEndpointStatus = UA_STATUSCODE_GOOD)
    (hct : env.copyTokenStatus = UA_STATUSCODE_GOOD) :
    (∀ ep tok, acceptedEndpoint sys.client.config env.endpoints = some ep →
       acceptableToken sys.client.config ep = some tok →
       (selectEndpoint env sys).1 = UA_STATUSCODE_GOOD ∧
       (selectEndpoint env sys).2.client.config.endpoint =
         { ep with userIdentityTokens := [] } ∧
       (selectEndpoint env sys).2.client.config.userTokenPolicy = tok) ∧
    (acceptedEndpoint sys.client.config env.endpoints = none →
     (∀ ep ∈ env.endpoints, endpointRejected sys.client.config ep = true) →
       (selectEndpoint env sys).1 = UA_STATUSCODE_BADINTERNALERROR ∧
       (selectEndpoint env sys).2.trace =
         sys.trace ++ [UA_Event.logNoSuitableEndpoint]) ∧
    (acceptedEndpoint sys.client.config env.endpoints = none →
     (∃ ep ∈ env.endpoints, endpointRejected sys.client.config ep = false) →
       (selectEndpoint env sys).1 = UA_STATUSCODE_BADINTERNALERROR ∧
       (selectEndpoint env sys).2.trace =
         sys.trace ++ [UA_Event.logNoSuitableUserTokenPolicy]) := by
  refine ⟨fun ep tok hf htok => ?_, fun hf hall => ?_, fun hf hex => ?_⟩
  · unfold selectEndpoint
    rw [if_neg (by simp [hge]),
      selectEndpointLoop_found env env.endpoints false sys ep tok hf htok hce hct]
    simp
  · unfold selectEndpoint
    rw [if_neg (by simp [hge]), selectEndpointLoop_none env env.endpoints false sys hf]
    have hany : env.endpoints.any
        (fun e => !endpointRejected sys.client.config e) = false := by
      simp only [List.any_eq_false]
      intro e he
      simp [hall e he]
    simp [hany, Sys.pushEvent]
  · unfold selectEndpoint
    rw [if_neg (by simp [hge]), selectEndpointLoop_none env env.endpoints false sys hf]
    obtain ⟨e, he, hre⟩ := hex
    have hany : env.endpoints.any
        (fun e => !endpointRejected sys.client.config e) = true := by
      simp only [List.any_eq_true]
      exact ⟨e, he, by simp [hre]⟩
    simp [hany, Sys.pushEvent]

/-- C3 concrete inputs: the first endpoint passes the filter but its only
token policy has an invalid token type; the second endpoint passes and
offers an anonymous token. -/
def endpointNoUsableToken : UA_EndpointDescription :=
  { endpointUrl := "opc.tcp://a", transportProfileUri := "", securityMode := 1,
    securityPolicyUri := securityPolicyNoneUri, serverCertificate := "",
    userIdentityTokens := [{ policyId := "only", tokenType := 9,
                             securityPolicyUri := "" }] }

def endpointAnonToken : UA_EndpointDescription :=
  { endpointUrl := "opc.tcp://b", transportProfileUri := binaryTransportProfileUri,
    securityMode := 1, securityPolicyUri := securityPolicyNoneUri,
    serverCertificate := "",
    userIdentityTokens := [{ policyId := "anon", tokenType := 0,
                             securityPolicyUri := "" }] }

def envTwoEndpoints : Env :=
  { envBase with endpoints := [endpointNoUsableToken, endpointAnonToken] }

/-- Counterexample to claim C3 as stated: the first endpoint passing the
filter has no acceptable token policy, yet `selectEndpoint` does not fail
with "No suitable UserTokenPolicy found" — it commits to the second
endpoint and succeeds. -/
theorem selectEndpoint_greedy_counterexample :
    endpointRejected sysBase.client.config endpointNoUsableToken = false ∧
    (∀ t ∈ endpointNoUsableToken.userIdentityTokens,
      userTokenRejected sysBase.client.config t = true) ∧
    (selectEndpoint envTwoEndpoints sysBase).1 = UA_STATUSCODE_GOOD ∧
    (selectEndpoint envTwoEndpoints sysBase).2.client.config.endpoint.endpointUrl =
      "opc.tcp://b" ∧
    UA_Event.logNoSuitableUserTokenPolicy ∉
      (selectEndpoint envTwoEndpoints sysBase).2.trace := by
  decide

/-- Witness for the amended C3 at the concrete two-endpoint environment. -/
theorem selectEndpoint_first_passing_with_token_witness :
    (∀ ep tok, acceptedEndpoint sysBase.client.config envTwoEndpoints.endpoints = some ep →
       acceptableToken sysBase.client.config ep = some tok →
       (selectEndpoint envTwoEndpoints sysBase).1 = UA_STATUSCODE_GOOD ∧
       (selectEndpoint envTwoEndpoints sysBase).2.client.config.endpoint =
         { ep with userIdentityTokens := [] } ∧
       (selectEndpoint envTwoEndpoints sysBase).2.client.config.userTokenPolicy = tok) ∧
    (acceptedEndpoint sysBase.client.config envTwoEndpoints.endpoints = none →
     (∀ ep ∈ envTwoEndpoints.endpoints,
        endpointRejected sysBase.client.config ep = true) →
       (selectEndpoint envTwoEndpoints sysBase).1 = UA_STATUSCODE_BADINTERNALERROR ∧
       (selectEndpoint envTwoEndpoints sysBase).2.trace =
         sysBase.trace ++ [UA_Event.logNoSuitableEndpoint]) ∧
    (acceptedEndpoint sysBase.client.config envTwoEndpoints.endpoints = none →
     (∃ ep ∈ envTwoEndpoints.endpoints,
        endpointRejected sysBase.client.config ep = false) →
       (selectEndpoint envTwoEndpoints sysBase).1 = UA_STATUSCODE_BADINTERNALERROR ∧
       (selectEndpoint envTwoEndpoints sysBase).2.trace =
         sysBase.trace ++ [UA_Event.logNoSuitableUserTokenPolicy]) :=
  selectEndpoint_first_passing_with_token envTwoEndpoints sysBase
    (by decide) (by decide) (by decide)

/-! ## C10: the per-iteration run-iterate timeout is cast to UInt16 -/

theorem connectSessionLoop_trace_mono (env : Env) (maxTime : Int) (fuel : Nat) :
    ∀ (nowTime : Int) (sys : Sys),
      sys.trace <+: (connectSessionLoop env maxTime fuel nowTime sys).2.trace := by
  induction fuel with
  | zero =>
    intro nowTime sys
    simp [connectSessionLoop]
  | succ n ih =>
    intro nowTime sys
    unfold connectSessionLoop
    split_ifs with h1 h2
    · simp
    · dsimp only
      split_ifs with h3 h4
      · simp [Sys.pushEvent, Sys.tickPump, Sys.applyPump]
      · simp [Sys.pushEvent, Sys.tickPump, Sys.applyPump]
      · refine List.IsPrefix.trans ?_ (ih _ _)
        simp [Sys.pushEvent, Sys.tickPump, Sys.applyPump, Sys.tickClock]
    · simp

/-- Claim C10: in the session pump loop of `UA_Client_connectSession`, the
timeout handed to `UA_Client_run_iterate` is the remaining time in
milliseconds cast to `UA_UInt16` — i.e. reduced modulo 2^16 — so whenever
the remaining time exceeds 65535 ms the passed value differs from the full
remaining time.  The run-iterate event with the truncated value is the next
event the loop records. -/
theorem session_pump_timeout_cast (env : Env) (maxTime nowTime : Int) (fuel : Nat)
    (sys : Sys) (hstate : sys.client.state ≠ UA_CLIENTSTATE_SESSION)
    (hdl : nowTime ≤ maxTime) :
    (sys.trace ++ [UA_Event.ranIterate
        ((((maxTime - nowTime) / UA_DATETIME_MSEC).toNat) % 65536)]) <+:
      (connectSessionLoop env maxTime (fuel + 1) nowTime sys).2.trace ∧
    (65535 < ((maxTime - nowTime) / UA_DATETIME_MSEC).toNat →
      (((maxTime - nowTime) / UA_DATETIME_MSEC).toNat) % 65536 ≠
        ((maxTime - nowTime) / UA_DATETIME_MSEC).toNat) := by
  constructor
  · unfold connectSessionLoop
    rw [if_pos hstate, if_neg (not_lt.mpr hdl)]
    dsimp only
    split_ifs with h3 h4
    · simp [Sys.pushEvent, Sys.tickPump, Sys.applyPump]
    · simp [Sys.pushEvent, Sys.tickPump, Sys.applyPump]
    · refine List.IsPrefix.trans ?_
        (connectSessionLoop_trace_mono env maxTime fuel _ _)
      simp [Sys.pushEvent, Sys.tickPump, Sys.applyPump, Sys.tickClock]
  · intro h
    have hlt : (((maxTime - nowTime) / UA_DATETIME_MSEC).toNat) % 65536 < 65536 :=
      Nat.mod_lt _ (by omega)
    omega

/-- C10 witness input: 70000 ms remain; the loop records a run-iterate
with timeout 70000 mod 65536 = 4464. -/
def sysPumpC10 : Sys :=
  { sysBase with client := { clientBase with state := UA_CLIENTSTATE_SECURECHANNEL } }

/-- Witness for C10 at concrete times: remaining 70000 ms, truncated to
4464. -/
theorem session_pump_timeout_cast_witness :
    (sysPumpC10.trace ++ [UA_Event.ranIterate
        ((((700000000 - 0) / UA_DATETIME_MSEC).toNat) % 65536)]) <+:
      (connectSessionLoop envBase 700000000 (0 + 1) 0 sysPumpC10).2.trace ∧
    (65535 < (((700000000 - 0) / UA_DATETIME_MSEC).toNat) →
      ((((700000000 - 0) / UA_DATETIME_MSEC).toNat) % 65536 ≠
        (((700000000 - 0) / UA_DATETIME_MSEC).toNat))) :=
  session_pump_timeout_cast envBase 700000000 0 0 sysPumpC10 (by decide) (by decide)

/-! ## Realizability of the connect phases

Sanity checks that the embedding reaches every phase the connect driver
has: under an everywhere-successful environment the client goes all the way
to an active session; endpoint selection and session establishment are
reached (and can fail there); and the policy-mismatch reconnect branch
executes.  Each is a concrete evaluation of the embedded code. -/

/-- An everywhere-successful environment whose server advertises one
None-security endpoint with an anonymous token policy. -/
def envAllGood : Env :=
  { envBase with endpoints := [endpointAnonToken] }

/-- The embedded connect reaches an active session: TCP open, HEL/ACK
(which establishes the transport), OpenSecureChannel, GetEndpoints with
endpoint selection, CreateSession and the session pump all execute; the
transport is established on return (spec §8). -/
theorem connect_reaches_session_example :
    (UA_Client_connectInternal (fun _ => envAllGood) 2 sysBase).1 =
      UA_STATUSCODE_GOOD ∧
    (UA_Client_connectInternal (fun _ => envAllGood) 2 sysBase).2.client.state =
      UA_CLIENTSTATE_SESSION ∧
    (UA_Client_connectInternal (fun _ => envAllGood) 2 sysBase).2.client.connectionState =
      UA_CONNECTION_ESTABLISHED := by
  decide

/-- A failure in the endpoint-selection phase is reachable: the secure
channel comes up, the server returns no endpoints, selection fails with an
internal error and the rollback leaves the client disconnected. -/
theorem connect_selection_failure_example :
    (UA_Client_connectInternal (fun _ => envBase) 1 sysBase).1 =
      UA_STATUSCODE_BADINTERNALERROR ∧
    (UA_Client_connectInternal (fun _ => envBase) 1 sysBase).2.client.state =
      UA_CLIENTSTATE_DISCONNECTED ∧
    UA_Event.sentOPN false ∈
      (UA_Client_connectInternal (fun _ => envBase) 1 sysBase).2.trace := by
  decide

/-- The second security policy available to the client for the reconnect
scenario. -/
def securityPolicyBasic256Sha256Uri : String :=
  "http://opcfoundation.org/UA/SecurityPolicy#Basic256Sha256"

/-- A server endpoint demanding Basic256Sha256, different from the #None
policy of the initial channel. -/
def endpointBasic256 : UA_EndpointDescription :=
  { endpointUrl := "opc.tcp://s", transportProfileUri := binaryTransportProfileUri,
    securityMode := 1, securityPolicyUri := securityPolicyBasic256Sha256Uri,
    serverCertificate := "cert",
    userIdentityTokens := [{ policyId := "anon", tokenType := 0,
                             securityPolicyUri := "" }] }

def envPolicySwitch : Env :=
  { envBase with endpoints := [endpointBasic256] }

/-- A client implementing both #None and Basic256Sha256. -/
def sysTwoPolicies : Sys :=
  { sysBase with client := { clientBase with config :=
      { cfgBase with securityPolicies :=
          [securityPolicyNoneUri, securityPolicyBasic256Sha256Uri] } } }

/-- The recursive reconnect branch executes: the selected endpoint's policy
(Basic256Sha256) differs from the channel's (#None), so the first pass
disconnects and recurses — with fuel 1 the recursion hits the exhausted
base case, while fuel 2 completes the second pass up to an active
session. -/
theorem connect_policy_switch_reconnect_example :
    (UA_Client_connectInternal (fun _ => envPolicySwitch) 2 sysTwoPolicies).1 =
      UA_STATUSCODE_GOOD ∧
    (UA_Client_connectInternal (fun _ => envPolicySwitch) 2 sysTwoPolicies).2.client.state =
      UA_CLIENTSTATE_SESSION ∧
    (UA_Client_connectInternal (fun _ => envPolicySwitch) 1 sysTwoPolicies).1 =
      UA_STATUSCODE_BADINTERNALERROR := by
  decide

/-- C1 witness input: everything up to the session phase succeeds, then
CreateSession fails with an allocation error. -/
def envSessionFails : Env :=
  { envAllGood with createSessionStatus := UA_STATUSCODE_BADOUTOFMEMORY }

/-- Witness for C1 at a failure in the last connect phase: the secure
channel and endpoint selection succeed, session establishment fails, and
the client is left disconnected. -/
theorem connect_failure_leaves_disconnected_witness :
    (UA_Client_connectInternal (fun _ => envSessionFails) 1 sysBase).2.client.state =
      UA_CLIENTSTATE_DISCONNECTED :=
  connect_failure_leaves_disconnected (fun _ => envSessionFails) 0 sysBase (by decide)
